import Mathlib

/-!
Verification development for the pro_dp transaction anomaly-scoring engine.

The repository ships a React frontend (embedded directly below from
frontend/src/components/UploadCSV.tsx and the dashboard pages) together with
documentation of a Flask backend whose anomaly engine
(backend/model/anomaly_model.py, backend/app.py) is not part of the source
tree available here.  The engine definitions below are therefore modelled
from the specification document; each such definition says so in its doc
comment.  All arithmetic is over ℚ so that every definition is executable.
-/

namespace ProDP

/-- Modelled from the spec: the engine configuration object (section 6).
The backend configuration code is missing from the source tree.
Recognized options: `contamination_rate` (default 0.1),
`impossible_travel_kmh` (default 900), `failed_login_threshold` (default 3),
`min_user_history` (default 3), three detector weights (default 1/3 each) and
`random_seed` (fixed constant default). -/
structure Config where
  contamination_rate : ℚ := 1/10
  impossible_travel_kmh : ℚ := 900
  failed_login_threshold : ℕ := 3
  min_user_history : ℕ := 3
  w_isolation : ℚ := 1/3
  w_clustering : ℚ := 1/3
  w_covariance : ℚ := 1/3
  unparsable_row_threshold : ℚ := 1/2
  random_seed : ℕ := 42
deriving DecidableEq

/-- The default configuration used by witnesses. -/
def defaultConfig : Config := {}

/-- Modelled from the spec: an immutable input row (section 3).  Required
fields are user id, amount and timestamp; all other fields are optional and
default to neutral values.  Timestamps are canonical ordinals in seconds. -/
structure TransactionRecord where
  transaction_id : ℕ
  user_id : ℕ
  amount : ℚ
  timestamp : ℚ
  latitude : Option ℚ := none
  longitude : Option ℚ := none
  device_id : Option ℕ := none
  failed_login_count : ℕ := 0
  is_new_payee : Bool := false
deriving DecidableEq

/-- Modelled from the spec: per-user baseline statistics (section 3),
built once per run from that user's records in the batch. -/
structure UserProfile where
  mean_amount : ℚ
  std_amount : ℚ
  txn_count : ℕ
deriving DecidableEq

/-- Modelled from the spec: the fixed-order numeric feature mapping derived
for each record (sections 3 and 4.3). -/
structure FeatureVector where
  amount : ℚ
  amount_zscore : ℚ
  seconds_since_prev : ℚ
  txns_last_hour : ℚ
  dist_from_prev_km : ℚ
  implied_speed_kmh : ℚ
  is_new_device : Bool
  failed_login_count : ℕ
deriving DecidableEq

/-- Modelled from the spec: one detector's output for one record — a boolean
outlier verdict plus a continuous score normalized to [0,1] (section 3). -/
structure ModelVote where
  verdict : Bool
  score : ℚ
deriving DecidableEq

/-- Modelled from the spec: the triple of ModelVotes (isolation, clustering,
covariance) produced for one record by the three detectors (section 4.4). -/
structure VoteTriple where
  iso : ModelVote
  clu : ModelVote
  cov : ModelVote
deriving DecidableEq

/-- Modelled from the spec: the rule-based hard signals of section 4.5 —
impossible travel, failed-login count above threshold, first-time-large
amount. -/
structure RuleSignals where
  impossible_travel : Bool
  excess_failed_logins : Bool
  first_time_large_amount : Bool
deriving DecidableEq

/-- Modelled from the spec: the per-record output — aggregated boolean flag,
integer risk score in [0,100], primary reason for flagged records, and an
echo of identifying fields (section 3). -/
structure AnomalyResult where
  transaction_id : ℕ
  amount : ℚ
  is_anomaly : Bool
  risk_score : ℤ
  reason : Option String
deriving DecidableEq

/-- Modelled from the spec: the summary statistics handed to the external
boundary (sections 4.8 and 6). -/
structure Summary where
  total_transactions : ℕ
  anomaly_count : ℕ
  high_risk_percent : ℚ
deriving DecidableEq

/-! ### User profile builder (spec section 4.2) -/

/-- Mean of a list of rationals; 0 for the empty list. -/
def meanQ (l : List ℚ) : ℚ :=
  if l.length = 0 then 0 else l.sum / l.length

/-- Population variance of a list of rationals; 0 for the empty list. -/
def varQ (l : List ℚ) : ℚ :=
  if l.length = 0 then 0 else (l.map (fun x => (x - meanQ l) ^ 2)).sum / l.length

/-- Modelled from the spec: standard deviation, realised over ℚ through the
integer-valued rational square root so the development stays executable. -/
def stdQ (l : List ℚ) : ℚ := Rat.sqrt (varQ l)

/-- The records of one user, in batch order. -/
def userRecords (recs : List TransactionRecord) (u : ℕ) : List TransactionRecord :=
  recs.filter (fun r => r.user_id = u)

/-- The amounts of a list of records. -/
def amounts (l : List TransactionRecord) : List ℚ := l.map (fun r => r.amount)

/-- Modelled from the spec: the global (all-user) aggregate profile used as
the fallback for thin user histories (section 4.2). -/
def globalProfile (recs : List TransactionRecord) : UserProfile :=
  { mean_amount := meanQ (amounts recs)
    std_amount := stdQ (amounts recs)
    txn_count := recs.length }

/-- Modelled from the spec: per-user profile; a user with fewer than
`min_user_history` records falls back to global aggregates for the
mean/std statistics (degraded-accuracy mode, section 4.2). -/
def profileFor (cfg : Config) (recs : List TransactionRecord) (u : ℕ) : UserProfile :=
  let ur := userRecords recs u
  if ur.length < cfg.min_user_history then
    { mean_amount := meanQ (amounts recs)
      std_amount := stdQ (amounts recs)
      txn_count := ur.length }
  else
    { mean_amount := meanQ (amounts ur)
      std_amount := stdQ (amounts ur)
      txn_count := ur.length }

/-- The small epsilon flooring the standard deviation in z-scores
(spec section 4.3). -/
def zEps : ℚ := 1/1000000

/-- Modelled from the spec: the z-score denominator is the profile standard
deviation floored at a small epsilon to avoid division blow-up. -/
def zDenom (p : UserProfile) : ℚ := max p.std_amount zEps

/-- Modelled from the spec: amount z-score against the user's profile. -/
def zscore (p : UserProfile) (amt : ℚ) : ℚ := (amt - p.mean_amount) / zDenom p

/-! ### Feature engineer (spec section 4.3) -/

/-- Modelled from the spec: surrogate for the haversine distance in km —
scaled Euclidean distance over coordinate degrees, kept rational so the
development stays executable.  Only the sign properties of the distance
matter to the stated claims. -/
def geoDistKm (lat1 lon1 lat2 lon2 : ℚ) : ℚ :=
  111 * Rat.sqrt ((lat1 - lat2) ^ 2 + (lon1 - lon2) ^ 2)

/-- Distance from the previous same-user location, when both records carry
coordinates; neutral 0 otherwise. -/
def distFromPrev (prev : Option TransactionRecord) (r : TransactionRecord) : ℚ :=
  match prev with
  | none => 0
  | some p =>
    match p.latitude, p.longitude, r.latitude, r.longitude with
    | some la1, some lo1, some la2, some lo2 => geoDistKm la1 lo1 la2 lo2
    | _, _, _, _ => 0

/-- Modelled from the spec: implied travel speed = distance / elapsed time
(in hours), with the elapsed time floored at a small epsilon. -/
def impliedSpeed (distKm elapsedSec : ℚ) : ℚ :=
  distKm / max (elapsedSec / 3600) zEps

/-- Modelled from the spec: the FeatureVector for the record at position `i`
of the batch, derived from the record's UserProfile and the prior records of
the same user within the batch.  Missing optional inputs yield neutral
values. -/
def featureAt (cfg : Config) (recs : List TransactionRecord) (i : ℕ)
    (r : TransactionRecord) : FeatureVector :=
  let p := profileFor cfg recs r.user_id
  let prior := (recs.take i).filter (fun s => s.user_id = r.user_id)
  let prev := prior.getLast?
  let elapsed := match prev with
    | none => 0
    | some q => r.timestamp - q.timestamp
  let dist := distFromPrev prev r
  { amount := r.amount
    amount_zscore := zscore p r.amount
    seconds_since_prev := elapsed
    txns_last_hour := (prior.countP (fun s => r.timestamp - s.timestamp ≤ 3600) : ℚ)
    dist_from_prev_km := dist
    implied_speed_kmh := impliedSpeed dist elapsed
    is_new_device := match r.device_id with
      | none => false
      | some d => !(prior.any (fun s => s.device_id = some d))
    failed_login_count := r.failed_login_count }

/-- Index-carrying feature engineering over the batch suffix starting at
position `i`. -/
def featuresFrom (cfg : Config) (recs : List TransactionRecord) :
    ℕ → List TransactionRecord → List FeatureVector
  | _, [] => []
  | i, r :: rest => featureAt cfg recs i r :: featuresFrom cfg recs (i + 1) rest

/-- Modelled from the spec: one FeatureVector per TransactionRecord, in
the record's original order. -/
def featureVectors (cfg : Config) (recs : List TransactionRecord) : List FeatureVector :=
  featuresFrom cfg recs 0 recs

/-! ### Anomaly ensemble (spec section 4.4) -/

/-- Clamp a rational into [0,1]. -/
def clamp01 (q : ℚ) : ℚ := max 0 (min 1 q)

/-- Min-max normalization of a raw score against the batch of raw scores
(spec section 4.4: raw score scales differ structurally, so each detector's
scores are normalized into [0,1] per batch); a degenerate batch maps to a
neutral 1/2. -/
def minMaxNorm (batch : List ℚ) (x : ℚ) : ℚ :=
  match batch with
  | [] => 0
  | a :: rest =>
    let lo := rest.foldl min a
    let hi := rest.foldl max a
    if hi = lo then 1/2 else clamp01 ((x - lo) / (hi - lo))

/-- Modelled from the spec: the isolation-style detector's raw per-record
anomaly score (deviation-driven surrogate for inverse isolation path
length). -/
def rawIso (fv : FeatureVector) : ℚ := |fv.amount_zscore|

/-- Modelled from the spec: the density-clustering detector's raw score,
driven by velocity and device novelty (surrogate for noise-point
distance). -/
def rawClu (fv : FeatureVector) : ℚ :=
  fv.txns_last_hour + (if fv.is_new_device then 1 else 0) + (fv.failed_login_count : ℚ)

/-- Modelled from the spec: the statistical-covariance detector's raw score
(surrogate for robust Mahalanobis distance over the dominant features). -/
def rawCov (fv : FeatureVector) : ℚ := |fv.amount_zscore| + fv.implied_speed_kmh / 1000

/-- Modelled from the spec: a detector's vote for one record — its raw score
normalized over the batch, with the verdict set by the contamination-derived
threshold. -/
def detectorVote (cfg : Config) (rawBatch : List ℚ) (raw : ℚ) : ModelVote :=
  let s := minMaxNorm rawBatch raw
  { verdict := decide (1 - cfg.contamination_rate < s), score := s }

/-- Modelled from the spec: the triple of ModelVotes for one record; each of
the three detectors runs independently over the full feature matrix and its
internals are seeded from `random_seed`, so the vote is a pure function of
the batch, the configuration (seed included) and the record's features. -/
def voteTriple (cfg : Config) (batch : List FeatureVector) (fv : FeatureVector) : VoteTriple :=
  { iso := detectorVote cfg (batch.map rawIso) (rawIso fv)
    clu := detectorVote cfg (batch.map rawClu) (rawClu fv)
    cov := detectorVote cfg (batch.map rawCov) (rawCov fv) }

/-! ### Rule-based hard signals and vote aggregation (spec section 4.5) -/

/-- Modelled from the spec: the rule-based hard signals of one record. -/
def signalsFor (cfg : Config) (r : TransactionRecord) (fv : FeatureVector) : RuleSignals :=
  { impossible_travel := decide (cfg.impossible_travel_kmh < fv.implied_speed_kmh)
    excess_failed_logins := decide (cfg.failed_login_threshold < r.failed_login_count)
    first_time_large_amount := r.is_new_payee && decide ((3 : ℚ) < fv.amount_zscore) }

/-- At least two of three booleans are true (detector majority). -/
def atLeastTwo (a b c : Bool) : Bool := a && b || a && c || b && c

/-- Some rule-based hard signal fired. -/
def anyHard (rs : RuleSignals) : Bool :=
  rs.impossible_travel || rs.excess_failed_logins || rs.first_time_large_amount

/-- Modelled from the spec: the aggregated anomaly flag — majority vote among
the three detectors OR any rule-based hard signal firing. -/
def isAnomaly (vt : VoteTriple) (rs : RuleSignals) : Bool :=
  atLeastTwo vt.iso.verdict vt.clu.verdict vt.cov.verdict || anyHard rs

/-! ### Risk scorer (spec section 4.6) -/

/-- Modelled from the spec: the fixed additive penalty of each fired
rule-based signal (+25 impossible travel, +20 first-time-large amount,
+15 excess failed logins; capped per-signal contributions). -/
def rulePenalty (rs : RuleSignals) : ℚ :=
  (if rs.impossible_travel then 25 else 0) +
    (if rs.first_time_large_amount then 20 else 0) +
    (if rs.excess_failed_logins then 15 else 0)

/-- Modelled from the spec: weighted blend of the three normalized detector
scores. -/
def blend (cfg : Config) (s1 s2 s3 : ℚ) : ℚ :=
  cfg.w_isolation * s1 + cfg.w_clustering * s2 + cfg.w_covariance * s3

/-- Clamp a rational into [0,100]. -/
def clamp0100 (q : ℚ) : ℚ := max 0 (min 100 q)

/-- Modelled from the spec: the final risk score — base weighted blend scaled
to 0–100 plus the rule penalties, clamped to [0,100] and rounded to an
integer. -/
def riskScore (cfg : Config) (s1 s2 s3 : ℚ) (rs : RuleSignals) : ℤ :=
  round (clamp0100 (100 * blend cfg s1 s2 s3 + rulePenalty rs))

/-! ### Explanation generator (spec section 4.7) -/

/-- Modelled from the spec: names the feature with the largest absolute
deviation contribution among the features the ensemble weights most
heavily. -/
def topFeatureName (fv : FeatureVector) : String :=
  let z := |fv.amount_zscore|
  let v := fv.txns_last_hour + (fv.failed_login_count : ℚ)
  let s := fv.implied_speed_kmh / 1000
  if v ≤ z ∧ s ≤ z then "unusually high amount for this user"
  else if s ≤ v then "rapid succession of transactions"
  else "unusual location change"

/-- Modelled from the spec: the primary explanation — the highest-penalty
fired rule-based signal when any fired (penalties order impossible travel >
first-time-large amount > failed logins), otherwise the dominant feature's
name. -/
def primaryReason (rs : RuleSignals) (fv : FeatureVector) : String :=
  if rs.impossible_travel then "impossible travel"
  else if rs.first_time_large_amount then "first-time large amount for this user"
  else if rs.excess_failed_logins then "excessive failed login attempts"
  else topFeatureName fv

/-- Modelled from the spec: exactly one primary explanation string per
flagged record; non-flagged records carry no explanation. -/
def reasonFor (anom : Bool) (rs : RuleSignals) (fv : FeatureVector) : Option String :=
  if anom then some (primaryReason rs fv) else none

/-! ### Result assembler (spec section 4.8) -/

/-- Modelled from the spec: assemble the AnomalyResult of one record from its
features, its vote triple over the batch and its rule signals, echoing the
identifying fields. -/
def resultFor (cfg : Config) (batch : List FeatureVector) (r : TransactionRecord)
    (fv : FeatureVector) : AnomalyResult :=
  let vt := voteTriple cfg batch fv
  let rs := signalsFor cfg r fv
  let anom := isAnomaly vt rs
  { transaction_id := r.transaction_id
    amount := r.amount
    is_anomaly := anom
    risk_score := riskScore cfg vt.iso.score vt.clu.score vt.cov.score rs
    reason := reasonFor anom rs fv }

/-- Index-carrying run over the batch suffix starting at position `i`. -/
def runFrom (cfg : Config) (recs : List TransactionRecord) (batch : List FeatureVector) :
    ℕ → List TransactionRecord → List AnomalyResult
  | _, [] => []
  | i, r :: rest =>
    resultFor cfg batch r (featureAt cfg recs i r) :: runFrom cfg recs batch (i + 1) rest

/-- Modelled from the spec: the whole engine — one AnomalyResult per input
TransactionRecord, in the input order. -/
def runEngine (cfg : Config) (recs : List TransactionRecord) : List AnomalyResult :=
  runFrom cfg recs (featureVectors cfg recs) 0 recs

/-- Round a rational to one decimal place. -/
def roundTo1 (q : ℚ) : ℚ := (round (q * 10) : ℚ) / 10

/-- Modelled from the spec: the summary statistics — total record count,
anomaly count, and high-risk percentage (anomalies / total × 100, rounded to
one decimal). -/
def summarize (results : List AnomalyResult) : Summary :=
  { total_transactions := results.length
    anomaly_count := results.countP (fun res => res.is_anomaly)
    high_risk_percent :=
      roundTo1 (((results.countP (fun res => res.is_anomaly) : ℚ) / results.length) * 100) }

/-! ### Schema normalizer (spec sections 4.1 and 7) -/

/-- A raw cell of the uploaded table: present and parsed, absent, or present
but unparsable. -/
inductive CellValue
  | val (q : ℚ)
  | missing
  | unparsable
deriving DecidableEq

/-- A raw row, keyed by the three required columns after alias resolution. -/
structure RawRow where
  user_id : CellValue
  amount : CellValue
  timestamp : CellValue
deriving DecidableEq

/-- A raw uploaded table: its column-name set plus its rows. -/
structure RawTable where
  columns : List String
  rows : List RawRow
deriving DecidableEq

/-- The fatal error taxonomy of the run (spec section 7). -/
inductive EngineError
  | schemaError
  | dataQualityError
deriving DecidableEq

/-- Modelled from the spec: the user id column resolves through its
case/alias variants. -/
def userIdResolvable (cols : List String) : Bool :=
  cols.contains "user_id"

/-- Modelled from the spec: the amount column resolves through its alias
variants. -/
def amountResolvable (cols : List String) : Bool :=
  cols.contains "transaction_amount" || cols.contains "amount"

/-- Modelled from the spec: the timestamp column resolves through its alias
variants (`timestamp` / `transaction_time`). -/
def timestampResolvable (cols : List String) : Bool :=
  cols.contains "timestamp" || cols.contains "transaction_time"

/-- All three required columns resolve for the dataset as a whole. -/
def schemaResolvable (tbl : RawTable) : Bool :=
  userIdResolvable tbl.columns && amountResolvable tbl.columns && timestampResolvable tbl.columns

/-- A row holds at least one unparsable value in a required column. -/
def rowUnparsable (row : RawRow) : Bool :=
  row.user_id = CellValue.unparsable || row.amount = CellValue.unparsable ||
    row.timestamp = CellValue.unparsable

/-- The fraction of unparsable rows exceeds the configured threshold. -/
def tooManyUnparsable (cfg : Config) (tbl : RawTable) : Bool :=
  decide (cfg.unparsable_row_threshold * tbl.rows.length < (tbl.rows.countP rowUnparsable : ℚ))

/-- A parsed cell: an unparsable or absent value is treated as missing
(`none`), never aborting the run. -/
def parseCell (c : CellValue) : Option ℚ :=
  match c with
  | CellValue.val q => some q
  | CellValue.missing => none
  | CellValue.unparsable => none

/-- A normalized row: each required field either parsed or null. -/
structure ParsedRow where
  user_id : Option ℚ
  amount : Option ℚ
  timestamp : Option ℚ
deriving DecidableEq

/-- Modelled from the spec: the schema normalizer — fails with `SchemaError`
when a required column is unresolvable for the dataset as a whole, fails with
`DataQualityError` when the fraction of unparsable rows exceeds the
configured threshold, and otherwise normalizes every row, treating per-row
unparsable values as missing. -/
def normalize (cfg : Config) (tbl : RawTable) : Except EngineError (List ParsedRow) :=
  if !schemaResolvable tbl then Except.error EngineError.schemaError
  else if tooManyUnparsable cfg tbl then Except.error EngineError.dataQualityError
  else Except.ok (tbl.rows.map (fun row =>
    { user_id := parseCell row.user_id
      amount := parseCell row.amount
      timestamp := parseCell row.timestamp }))

/-! ### Frontend upload guard, embedded from
frontend/src/components/UploadCSV.tsx (`onDrop`). -/

/-- The fields of a dropped `File` the handler inspects: its MIME type and
its name. -/
structure FileInfo where
  mimeType : String
  name : String
deriving DecidableEq

/-- The observable outcome of `onDrop`: no file accepted, file rejected with
an error message before any upload, or `uploadCSV` called on the file. -/
inductive DropOutcome
  | noFile
  | rejected (errorMsg : String)
  | uploadCalled (f : FileInfo)
deriving DecidableEq

/-- The JavaScript `String.prototype.endsWith` test, realised over the
underlying character lists so it stays kernel-executable. -/
def strEndsWith (s suffix : String) : Bool :=
  suffix.data.isSuffixOf s.data

/-- Embedded from `onDrop` in UploadCSV.tsx: takes the first accepted file;
returns if there is none; rejects with "Only CSV files are allowed." when the
MIME type is not "text/csv" and the name does not end with ".csv"; otherwise
proceeds to call `uploadCSV`. -/
def onDrop (acceptedFiles : List FileInfo) : DropOutcome :=
  match acceptedFiles.head? with
  | none => DropOutcome.noFile
  | some file =>
    if file.mimeType ≠ "text/csv" && !(strEndsWith file.name ".csv") then
      DropOutcome.rejected "Only CSV files are allowed."
    else
      DropOutcome.uploadCalled file

/-! ### Sample inputs used by witnesses -/

/-- A benign sample record. -/
def sampleRec : TransactionRecord :=
  { transaction_id := 1, user_id := 7, amount := 50, timestamp := 0 }

/-- A second sample record for the same user, one hour later. -/
def sampleRec2 : TransactionRecord :=
  { transaction_id := 2, user_id := 7, amount := 60, timestamp := 3600 }

/-- A feature vector whose implied travel speed far exceeds the default
impossible-travel threshold. -/
def fvFast : FeatureVector :=
  { amount := 500, amount_zscore := 0, seconds_since_prev := 300, txns_last_hour := 1
    dist_from_prev_km := 2000, implied_speed_kmh := 24000, is_new_device := false
    failed_login_count := 0 }

/-- The rule-signal bundle with nothing fired. -/
def noSignals : RuleSignals := ⟨false, false, false⟩

/-! ### Helper lemmas -/

/-- Rounding over ℚ is monotone. -/
lemma round_mono_q {x y : ℚ} (h : x ≤ y) : round x ≤ round y := by
  rw [round_eq, round_eq]
  exact Int.floor_mono (by linarith)

/-- Rounding fixes 100. -/
lemma round_q_100 : round (100 : ℚ) = (100 : ℤ) := by
  have h2 := @round_intCast ℚ _ _ 100
  have h3 : (((100 : ℤ) : ℚ)) = (100 : ℚ) := by norm_cast
  rwa [h3] at h2

lemma clamp0100_nonneg (q : ℚ) : 0 ≤ clamp0100 q := le_max_left _ _

lemma clamp0100_le (q : ℚ) : clamp0100 q ≤ 100 :=
  max_le (by norm_num) (min_le_left _ _)

lemma clamp0100_mono {x y : ℚ} (h : x ≤ y) : clamp0100 x ≤ clamp0100 y :=
  max_le_max le_rfl (min_le_min le_rfl h)

lemma riskScore_nonneg (cfg : Config) (s1 s2 s3 : ℚ) (rs : RuleSignals) :
    0 ≤ riskScore cfg s1 s2 s3 rs := by
  unfold riskScore
  have h := round_mono_q (clamp0100_nonneg (100 * blend cfg s1 s2 s3 + rulePenalty rs))
  rwa [round_zero] at h

lemma riskScore_le_100 (cfg : Config) (s1 s2 s3 : ℚ) (rs : RuleSignals) :
    riskScore cfg s1 s2 s3 rs ≤ 100 := by
  unfold riskScore
  have h := round_mono_q (clamp0100_le (100 * blend cfg s1 s2 s3 + rulePenalty rs))
  rwa [round_q_100] at h

lemma runFrom_length (cfg : Config) (recs : List TransactionRecord)
    (batch : List FeatureVector) :
    ∀ (i : ℕ) (l : List TransactionRecord), (runFrom cfg recs batch i l).length = l.length := by
  intro i l
  induction l generalizing i with
  | nil => rfl
  | cons r rest ih => simp [runFrom, ih]

lemma runFrom_getElem? (cfg : Config) (recs : List TransactionRecord)
    (batch : List FeatureVector) :
    ∀ (i j : ℕ) (l : List TransactionRecord),
      (runFrom cfg recs batch i l)[j]? =
        (l[j]?).map (fun r => resultFor cfg batch r (featureAt cfg recs (i + j) r)) := by
  intro i j l
  induction l generalizing i j with
  | nil => simp [runFrom]
  | cons r rest ih =>
    cases j with
    | zero => simp [runFrom]
    | succ j =>
      have hidx : i + 1 + j = i + (j + 1) := by omega
      simp only [runFrom, List.getElem?_cons_succ, ih (i + 1) j, hidx]

lemma featuresFrom_length (cfg : Config) (recs : List TransactionRecord) :
    ∀ (i : ℕ) (l : List TransactionRecord), (featuresFrom cfg recs i l).length = l.length := by
  intro i l
  induction l generalizing i with
  | nil => rfl
  | cons r rest ih => simp [featuresFrom, ih]

lemma featuresFrom_getElem? (cfg : Config) (recs : List TransactionRecord) :
    ∀ (i j : ℕ) (l : List TransactionRecord),
      (featuresFrom cfg recs i l)[j]? = (l[j]?).map (fun r => featureAt cfg recs (i + j) r) := by
  intro i j l
  induction l generalizing i j with
  | nil => simp [featuresFrom]
  | cons r rest ih =>
    cases j with
    | zero => simp [featuresFrom]
    | succ j =>
      have hidx : i + 1 + j = i + (j + 1) := by omega
      simp only [featuresFrom, List.getElem?_cons_succ, ih (i + 1) j, hidx]

lemma runEngine_length (cfg : Config) (recs : List TransactionRecord) :
    (runEngine cfg recs).length = recs.length :=
  runFrom_length cfg recs (featureVectors cfg recs) 0 recs

lemma featureVectors_length (cfg : Config) (recs : List TransactionRecord) :
    (featureVectors cfg recs).length = recs.length :=
  featuresFrom_length cfg recs 0 recs

lemma runEngine_getElem? (cfg : Config) (recs : List TransactionRecord) (i : ℕ) :
    (runEngine cfg recs)[i]? =
      (recs[i]?).map (fun r => resultFor cfg (featureVectors cfg recs) r (featureAt cfg recs i r)) := by
  have h := runFrom_getElem? cfg recs (featureVectors cfg recs) 0 i recs
  simpa using h

lemma featureVectors_getElem? (cfg : Config) (recs : List TransactionRecord) (i : ℕ) :
    (featureVectors cfg recs)[i]? = (recs[i]?).map (fun r => featureAt cfg recs i r) := by
  have h := featuresFrom_getElem? cfg recs 0 i recs
  simpa using h

/-! ### Claim theorems -/

/-- C1: for every valid input batch the engine returns exactly one
AnomalyResult per input TransactionRecord, each record maps at its own index
to one FeatureVector and one AnomalyResult (assembled from that record's
vote triple and rule signals), and the output sequence preserves the input
record order end-to-end. -/
theorem engine_one_result_per_record_in_order (cfg : Config) (recs : List TransactionRecord) :
    (featureVectors cfg recs).length = recs.length ∧
    (runEngine cfg recs).length = recs.length ∧
    ∀ i r, recs[i]? = some r →
      (featureVectors cfg recs)[i]? = some (featureAt cfg recs i r) ∧
      (runEngine cfg recs)[i]? =
        some (resultFor cfg (featureVectors cfg recs) r (featureAt cfg recs i r)) := by
  refine ⟨featureVectors_length cfg recs, runEngine_length cfg recs, ?_⟩
  intro i r h
  rw [featureVectors_getElem? cfg recs i, runEngine_getElem? cfg recs i, h]
  exact ⟨rfl, rfl⟩

/-- C1 witness: evaluated on a concrete two-record batch. -/
theorem engine_one_result_per_record_in_order_witness :
    (runEngine defaultConfig [sampleRec, sampleRec2]).length = 2 ∧
    (runEngine defaultConfig [sampleRec, sampleRec2])[0]? =
      some (resultFor defaultConfig (featureVectors defaultConfig [sampleRec, sampleRec2])
        sampleRec (featureAt defaultConfig [sampleRec, sampleRec2] 0 sampleRec)) := by
  have h := engine_one_result_per_record_in_order defaultConfig [sampleRec, sampleRec2]
  exact ⟨h.2.1, (h.2.2 0 sampleRec rfl).2⟩

/-- C2: every record's final risk score is an integer in the closed interval
[0,100]: the weighted blend of detector scores plus rule penalties is clamped
to [0,100] and rounded to an integer before output. -/
theorem risk_score_always_in_0_100 (cfg : Config) (recs : List TransactionRecord) :
    ∀ res ∈ runEngine cfg recs, 0 ≤ res.risk_score ∧ res.risk_score ≤ 100 := by
  have key : ∀ (batch : List FeatureVector) (i : ℕ) (l : List TransactionRecord),
      ∀ res ∈ runFrom cfg recs batch i l, 0 ≤ res.risk_score ∧ res.risk_score ≤ 100 := by
    intro batch i l
    induction l generalizing i with
    | nil => intro res h; simp [runFrom] at h
    | cons r rest ih =>
      intro res h
      rw [runFrom] at h
      rcases List.mem_cons.mp h with h | h
      · subst h
        exact ⟨riskScore_nonneg _ _ _ _ _, riskScore_le_100 _ _ _ _ _⟩
      · exact ih (i + 1) res h
  exact key (featureVectors cfg recs) 0 recs

/-- C2 witness: evaluated on a concrete singleton batch. -/
theorem risk_score_always_in_0_100_witness :
    0 ≤ (resultFor defaultConfig (featureVectors defaultConfig [sampleRec]) sampleRec
        (featureAt defaultConfig [sampleRec] 0 sampleRec)).risk_score ∧
      (resultFor defaultConfig (featureVectors defaultConfig [sampleRec]) sampleRec
        (featureAt defaultConfig [sampleRec] 0 sampleRec)).risk_score ≤ 100 :=
  risk_score_always_in_0_100 defaultConfig [sampleRec] _ (by simp [runEngine, runFrom])

/-- C3: the aggregated flag equals (at least 2 of the 3 detector verdicts
positive) OR (some rule-based hard signal fired); a feature vector whose
implied travel speed exceeds `impossible_travel_kmh` always yields
`is_anomaly = true` regardless of the detector votes, and a positive detector
majority is never suppressed by hard signals. -/
theorem vote_aggregation_rule (cfg : Config) (batch : List FeatureVector)
    (r : TransactionRecord) (fv : FeatureVector) :
    ((resultFor cfg batch r fv).is_anomaly =
      (atLeastTwo (voteTriple cfg batch fv).iso.verdict (voteTriple cfg batch fv).clu.verdict
          (voteTriple cfg batch fv).cov.verdict
        || anyHard (signalsFor cfg r fv))) ∧
    (cfg.impossible_travel_kmh < fv.implied_speed_kmh →
      (resultFor cfg batch r fv).is_anomaly = true) ∧
    (atLeastTwo (voteTriple cfg batch fv).iso.verdict (voteTriple cfg batch fv).clu.verdict
        (voteTriple cfg batch fv).cov.verdict = true →
      (resultFor cfg batch r fv).is_anomaly = true) := by
  refine ⟨rfl, ?_, ?_⟩
  · intro h
    have hsig : (signalsFor cfg r fv).impossible_travel = true := by
      simp [signalsFor, h]
    show (isAnomaly (voteTriple cfg batch fv) (signalsFor cfg r fv)) = true
    simp [isAnomaly, anyHard, hsig]
  · intro h
    show (isAnomaly (voteTriple cfg batch fv) (signalsFor cfg r fv)) = true
    simp [isAnomaly, h]

/-- C3 witness: a feature vector travelling 2000 km in 5 minutes is flagged
under the default configuration. -/
theorem vote_aggregation_rule_witness :
    (resultFor defaultConfig [] sampleRec fvFast).is_anomaly = true :=
  (vote_aggregation_rule defaultConfig [] sampleRec fvFast).2.1 (by norm_num [defaultConfig, fvFast])

/-- C5: the engine is deterministic given a seed — two runs with identical
input records and identical configuration (`random_seed` included) produce
identical results (hence identical `is_anomaly`, `risk_score`, `reason` per
record) and identical summary statistics. -/
theorem engine_deterministic (cfg cfg2 : Config) (recs recs2 : List TransactionRecord)
    (hc : cfg = cfg2) (hr : recs = recs2) :
    runEngine cfg recs = runEngine cfg2 recs2 ∧
      summarize (runEngine cfg recs) = summarize (runEngine cfg2 recs2) := by
  subst hc
  subst hr
  exact ⟨rfl, rfl⟩

/-- C5 witness: evaluated at the default configuration on a concrete
batch. -/
theorem engine_deterministic_witness :
    runEngine defaultConfig [sampleRec] = runEngine defaultConfig [sampleRec] ∧
      summarize (runEngine defaultConfig [sampleRec]) =
        summarize (runEngine defaultConfig [sampleRec]) :=
  engine_deterministic defaultConfig defaultConfig [sampleRec] [sampleRec] rfl rfl

/-- One rule-signal bundle fires at most the signals another fires: firing
an additional rule moves up in this order. -/
def signalsLe (rs rt : RuleSignals) : Prop :=
  (rs.impossible_travel = true → rt.impossible_travel = true) ∧
    (rs.excess_failed_logins = true → rt.excess_failed_logins = true) ∧
    (rs.first_time_large_amount = true → rt.first_time_large_amount = true)

lemma ite_penalty_mono {a b : Bool} (c : ℚ) (hc : 0 ≤ c) (h : a = true → b = true) :
    (if a then c else 0) ≤ (if b then c else 0) := by
  cases a with
  | false => cases b <;> simp [hc]
  | true => rw [h rfl]

lemma rulePenalty_mono {rs rt : RuleSignals} (h : signalsLe rs rt) :
    rulePenalty rs ≤ rulePenalty rt := by
  obtain ⟨h1, h2, h3⟩ := h
  unfold rulePenalty
  have a1 := @ite_penalty_mono rs.impossible_travel rt.impossible_travel 25 (by norm_num) h1
  have a2 := @ite_penalty_mono rs.first_time_large_amount rt.first_time_large_amount
    20 (by norm_num) h3
  have a3 := @ite_penalty_mono rs.excess_failed_logins rt.excess_failed_logins
    15 (by norm_num) h2
  linarith

/-- C4: the risk score is monotone in each input signal — with nonnegative
detector weights, raising any detector's normalized score (the others held
fixed) or firing additional rule-based signals never decreases the final
risk score. -/
theorem risk_score_monotone (cfg : Config)
    (hw1 : 0 ≤ cfg.w_isolation) (hw2 : 0 ≤ cfg.w_clustering) (hw3 : 0 ≤ cfg.w_covariance)
    (s1 s1' s2 s2' s3 s3' : ℚ) (rs rt : RuleSignals)
    (h1 : s1 ≤ s1') (h2 : s2 ≤ s2') (h3 : s3 ≤ s3') (hrs : signalsLe rs rt) :
    riskScore cfg s1 s2 s3 rs ≤ riskScore cfg s1' s2' s3' rt := by
  have hb : blend cfg s1 s2 s3 ≤ blend cfg s1' s2' s3' := by
    unfold blend
    have b1 := mul_le_mul_of_nonneg_left h1 hw1
    have b2 := mul_le_mul_of_nonneg_left h2 hw2
    have b3 := mul_le_mul_of_nonneg_left h3 hw3
    linarith
  have hp := rulePenalty_mono hrs
  unfold riskScore
  exact round_mono_q (clamp0100_mono (by linarith))

/-- C4 witness: raising the isolation detector's score from 0 to 1 under the
default configuration does not lower the score. -/
theorem risk_score_monotone_witness :
    riskScore defaultConfig 0 0 0 noSignals ≤ riskScore defaultConfig 1 0 0 noSignals :=
  risk_score_monotone defaultConfig (by norm_num [defaultConfig]) (by norm_num [defaultConfig])
    (by norm_num [defaultConfig]) 0 1 0 0 0 0 noSignals noSignals (by norm_num)
    le_rfl le_rfl ⟨fun h => h, fun h => h, fun h => h⟩

/-- C6: the run fails with `SchemaError` exactly when one of the user id,
amount or timestamp columns is unresolvable for the dataset as a whole;
with the schema resolvable it fails with `DataQualityError` exactly when the
fraction of unparsable rows exceeds the configured threshold; otherwise the
run succeeds and each per-row unparsable value is treated as missing. -/
theorem normalize_error_characterization (cfg : Config) (tbl : RawTable) :
    (normalize cfg tbl = Except.error EngineError.schemaError ↔
      schemaResolvable tbl = false) ∧
    (normalize cfg tbl = Except.error EngineError.dataQualityError ↔
      schemaResolvable tbl = true ∧ tooManyUnparsable cfg tbl = true) ∧
    (schemaResolvable tbl = true → tooManyUnparsable cfg tbl = false →
      normalize cfg tbl = Except.ok (tbl.rows.map (fun row =>
        { user_id := parseCell row.user_id
          amount := parseCell row.amount
          timestamp := parseCell row.timestamp }))) := by
  unfold normalize
  cases hs : schemaResolvable tbl with
  | false => simp
  | true => cases hq : tooManyUnparsable cfg tbl <;> simp

/-- A table whose column set lacks any amount alias entirely. -/
def tblNoAmount : RawTable :=
  { columns := ["user_id", "timestamp"]
    rows := [{ user_id := CellValue.val 1, amount := CellValue.missing
               timestamp := CellValue.val 0 }] }

/-- C6 witness: a dataset missing the amount column entirely fails with
`SchemaError`. -/
theorem normalize_error_characterization_witness :
    normalize defaultConfig tblNoAmount = Except.error EngineError.schemaError :=
  (normalize_error_characterization defaultConfig tblNoAmount).1.mpr (by decide)

/-- C7: the summary's `total_transactions` equals the number of input
records, `anomaly_count` equals the number of results with
`is_anomaly = true`, `high_risk_percent` equals anomaly_count / total × 100
rounded to one decimal, and each AnomalyResult echoes its record's
transaction id and amount. -/
theorem summary_statistics_and_echo (cfg : Config) (recs : List TransactionRecord) :
    (summarize (runEngine cfg recs)).total_transactions = recs.length ∧
    (summarize (runEngine cfg recs)).anomaly_count =
      (runEngine cfg recs).countP (fun res => res.is_anomaly) ∧
    (summarize (runEngine cfg recs)).high_risk_percent =
      roundTo1 ((((runEngine cfg recs).countP (fun res => res.is_anomaly) : ℚ) /
        (recs.length : ℚ)) * 100) ∧
    ∀ (i : ℕ) (r : TransactionRecord), recs[i]? = some r →
      ∃ res : AnomalyResult, (runEngine cfg recs)[i]? = some res ∧
        res.transaction_id = r.transaction_id ∧ res.amount = r.amount := by
  refine ⟨?_, rfl, ?_, ?_⟩
  · show (runEngine cfg recs).length = recs.length
    exact runEngine_length cfg recs
  · show roundTo1 _ = roundTo1 _
    rw [runEngine_length cfg recs]
  · intro i r h
    refine ⟨resultFor cfg (featureVectors cfg recs) r (featureAt cfg recs i r), ?_, rfl, rfl⟩
    rw [runEngine_getElem? cfg recs i, h]
    rfl

/-- C7 witness: evaluated on a concrete singleton batch. -/
theorem summary_statistics_and_echo_witness :
    (summarize (runEngine defaultConfig [sampleRec])).total_transactions = 1 ∧
    ∃ res : AnomalyResult, (runEngine defaultConfig [sampleRec])[0]? = some res ∧
      res.transaction_id = sampleRec.transaction_id ∧ res.amount = sampleRec.amount := by
  have h := summary_statistics_and_echo defaultConfig [sampleRec]
  exact ⟨h.1, h.2.2.2 0 sampleRec rfl⟩

/-- C8: a user with fewer than `min_user_history` records falls back to the
global aggregates for mean/std, and the z-score denominator is floored at a
positive epsilon, so the amount z-score never divides by zero and every such
record still gets a well-defined FeatureVector. -/
theorem degraded_mode_thin_history (cfg : Config) (recs : List TransactionRecord) (u : ℕ)
    (h : (userRecords recs u).length < cfg.min_user_history) :
    profileFor cfg recs u =
      { mean_amount := meanQ (amounts recs), std_amount := stdQ (amounts recs)
        txn_count := (userRecords recs u).length } ∧
    0 < zDenom (profileFor cfg recs u) := by
  constructor
  · unfold profileFor
    rw [if_pos h]
  · have hz : (0 : ℚ) < zEps := by norm_num [zEps]
    exact lt_of_lt_of_le hz (le_max_right _ _)

/-- C8 witness: a single-record user under the default minimum history of
3 falls back and keeps a positive z-score denominator. -/
theorem degraded_mode_thin_history_witness :
    0 < zDenom (profileFor defaultConfig [sampleRec] 7) :=
  (degraded_mode_thin_history defaultConfig [sampleRec] 7 (by decide)).2

/-- C9: every flagged record carries exactly one primary explanation string —
the highest-penalty fired rule-based signal when any rule fired (impossible
travel highest), otherwise the name of the dominant-deviation feature — and
every non-flagged record carries no explanation. -/
theorem explanation_exactly_one_for_flagged (cfg : Config) (batch : List FeatureVector)
    (r : TransactionRecord) (fv : FeatureVector) :
    ((resultFor cfg batch r fv).is_anomaly = true →
      (resultFor cfg batch r fv).reason = some (primaryReason (signalsFor cfg r fv) fv)) ∧
    ((resultFor cfg batch r fv).is_anomaly = false →
      (resultFor cfg batch r fv).reason = none) ∧
    (anyHard (signalsFor cfg r fv) = false →
      primaryReason (signalsFor cfg r fv) fv = topFeatureName fv) ∧
    ((signalsFor cfg r fv).impossible_travel = true →
      primaryReason (signalsFor cfg r fv) fv = "impossible travel") := by
  refine ⟨?_, ?_, ?_, ?_⟩
  · intro h
    show reasonFor (isAnomaly (voteTriple cfg batch fv) (signalsFor cfg r fv))
      (signalsFor cfg r fv) fv = _
    have ha : isAnomaly (voteTriple cfg batch fv) (signalsFor cfg r fv) = true := h
    rw [ha]
    rfl
  · intro h
    show reasonFor (isAnomaly (voteTriple cfg batch fv) (signalsFor cfg r fv))
      (signalsFor cfg r fv) fv = _
    have ha : isAnomaly (voteTriple cfg batch fv) (signalsFor cfg r fv) = false := h
    rw [ha]
    rfl
  · intro h
    have h1 : (signalsFor cfg r fv).impossible_travel = false := by
      revert h; unfold anyHard; cases (signalsFor cfg r fv).impossible_travel <;> simp
    have h2 : (signalsFor cfg r fv).excess_failed_logins = false := by
      revert h; unfold anyHard; cases (signalsFor cfg r fv).excess_failed_logins <;> simp
    have h3 : (signalsFor cfg r fv).first_time_large_amount = false := by
      revert h; unfold anyHard; cases (signalsFor cfg r fv).first_time_large_amount <;> simp
    unfold primaryReason
    rw [h1, h2, h3]
    rfl
  · intro h
    unfold primaryReason
    rw [h]
    rfl

/-- C9 witness: the impossible-travel record is flagged and carries exactly
the impossible-travel explanation. -/
theorem explanation_exactly_one_for_flagged_witness :
    (resultFor defaultConfig [] sampleRec fvFast).reason =
      some (primaryReason (signalsFor defaultConfig sampleRec fvFast) fvFast) := by
  apply (explanation_exactly_one_for_flagged defaultConfig [] sampleRec fvFast).1
  show isAnomaly (voteTriple defaultConfig [] fvFast) (signalsFor defaultConfig sampleRec fvFast)
    = true
  have hsig : (signalsFor defaultConfig sampleRec fvFast).impossible_travel = true := by
    simp only [signalsFor, decide_eq_true_eq]
    norm_num [defaultConfig, fvFast]
  simp [isAnomaly, anyHard, hsig]

/-- C10: a dropped file whose MIME type is not "text/csv" and whose name does
not end with ".csv" makes `onDrop` set the error message to
"Only CSV files are allowed." and return without ever calling `uploadCSV`. -/
theorem non_csv_rejected_without_upload (files : List FileInfo) (f : FileInfo)
    (hhead : files.head? = some f)
    (htype : f.mimeType ≠ "text/csv") (hname : strEndsWith f.name ".csv" = false) :
    onDrop files = DropOutcome.rejected "Only CSV files are allowed." ∧
    ∀ g : FileInfo, onDrop files ≠ DropOutcome.uploadCalled g := by
  have hcase : onDrop files = DropOutcome.rejected "Only CSV files are allowed." := by
    unfold onDrop
    rw [hhead]
    simp [htype, hname]
  refine ⟨hcase, ?_⟩
  intro g hcontra
  rw [hcase] at hcontra
  exact DropOutcome.noConfusion hcontra

/-- C10 witness: a dropped PDF is rejected with the exact message and no
upload happens. -/
theorem non_csv_rejected_without_upload_witness :
    onDrop [{ mimeType := "application/pdf", name := "report.pdf" }] =
      DropOutcome.rejected "Only CSV files are allowed." :=
  (non_csv_rejected_without_upload [{ mimeType := "application/pdf", name := "report.pdf" }]
    { mimeType := "application/pdf", name := "report.pdf" } rfl (by decide) (by decide)).1

end ProDP
